import Mathlib

/-!
Verification of the paxmanager workflow core against its sources.

The repository is a React front-end; the workflow back-end (state machine
engine, workflow service, audit recorder, persistence) is reached only
through REST calls, so those parts are modelled from the specification
(each such definition says so in its doc comment).  The pure helper
functions in `src/unnamed/part_000` (`calculateTotalPaid`,
`calculateBalance`) and the UI permission / button-guard conditions are
embedded directly from the JavaScript source.  JavaScript numbers are
modelled as exact rationals plus an explicit NaN value; `null`,
`undefined` and other non-numeric values are explicit constructors where
the code distinguishes them.
-/

namespace PaxManager

/-- User roles, from `ROLES` in `src/frontend/src/utils/constants`. -/
inductive Role
  | agent1
  | agent2
  | account
  | admin
  deriving DecidableEq

/-- Booking statuses, from `BOOKING_STATUS` in the constants module. -/
inductive Status
  | draft
  | submitted
  | pending_verification
  | account_verified
  | admin_verified
  | billed
  | paid
  deriving DecidableEq

/-- A JavaScript numeric value: NaN, or a finite number modelled as an
exact rational. -/
inductive JSNum
  | nan
  | num (q : ℚ)
  deriving DecidableEq

/-- JavaScript `+` on two numbers: NaN propagates. -/
def jsAdd : JSNum → JSNum → JSNum
  | .num a, .num b => .num (a + b)
  | _, _ => .nan

/-- JavaScript `-` on two numbers: NaN propagates. -/
def jsSub : JSNum → JSNum → JSNum
  | .num a, .num b => .num (a - b)
  | _, _ => .nan

/-- The JS value found in an installment's `amount` field: absent field,
`null`, `undefined`, NaN, or a finite number. -/
inductive Amount
  | missing
  | anull
  | undef
  | nan
  | num (q : ℚ)
  deriving DecidableEq

/-- An installment record `{amount, date, mode}` (spec section 3; built by
the create-booking form). -/
structure Installment where
  amount : Amount
  date : String
  mode : String
  deriving DecidableEq

/-- The JS value passed to `calculateTotalPaid`: `null`, `undefined`, NaN,
a number, a string, a boolean, a non-array object, or an array of
installment records. -/
inductive TPArg
  | tnull
  | tundef
  | tnan
  | tnum (q : ℚ)
  | tstr (s : String)
  | tbool (b : Bool)
  | tobj
  | tarr (xs : List Installment)
  deriving DecidableEq

/-- `inst.amount || 0` from part_000 line 51: the falsy amounts
(absent, `null`, `undefined`, NaN, and the number 0) give 0; any other
number gives itself (`.num 0` falls in the last arm with the same value). -/
def amountOr0 : Amount → JSNum
  | .num q => .num q
  | _ => .num 0

/-- `calculateTotalPaid` from `src/unnamed/part_000` lines 49-52: any
non-array argument returns 0; otherwise `reduce((sum, inst) =>
sum + (inst.amount || 0), 0)`. -/
def calculateTotalPaid : TPArg → JSNum
  | .tarr xs => xs.foldl (fun s i => jsAdd s (amountOr0 i.amount)) (.num 0)
  | _ => .num 0

/-- The JS value of `salePrice` as passed to `calculateBalance`. -/
inductive SPArg
  | snull
  | sundef
  | snan
  | snum (q : ℚ)
  deriving DecidableEq

/-- The ToNumber coercion JavaScript subtraction applies to `salePrice`:
`null` coerces to 0, `undefined` to NaN. -/
def spToNumber : SPArg → JSNum
  | .snull => .num 0
  | .sundef => .nan
  | .snan => .nan
  | .snum q => .num q

/-- `calculateBalance` from `src/unnamed/part_000` lines 54-57:
`salePrice - calculateTotalPaid(installments)` with no validation of
`salePrice`. -/
def calculateBalance (salePrice : SPArg) (installments : TPArg) : JSNum :=
  jsSub (spToNumber salePrice) (calculateTotalPaid installments)

/-- The numeric contribution of an amount under `amount || 0`
(specification value used to state sum lemmas). -/
def amtVal : Amount → ℚ
  | .num q => q
  | _ => 0

/-- The eight actions of the spec section 4.1 permission table. -/
inductive Action
  | createBooking
  | submitBooking
  | verifyAccount
  | verifyAdmin
  | viewReports
  | manageSuppliers
  | manageUsers
  | viewAuditLogs
  deriving DecidableEq

/-- The role policy as the code enforces it: `App.js` route
`allowedRoles` (lines 54-106), `DashboardLayout` navigation roles
(part_001 lines 28-35), the BookingsListPage create-booking button
(agent1 or admin, part_004 line 191) and the BookingDetailPage action
buttons (part_003 lines 97-113: submit is rendered for agent1 only,
account-verify for account or admin, admin-verify for admin only). -/
def canCode (r : Role) : Action → Bool
  | .createBooking => r == .agent1 || r == .admin
  | .submitBooking => r == .agent1
  | .verifyAccount => r == .account || r == .admin
  | .verifyAdmin => r == .admin
  | .viewReports => r == .account || r == .admin
  | .manageSuppliers => r == .admin
  | .manageUsers => r == .admin
  | .viewAuditLogs => r == .admin

/-- Modelled from the spec: the section 4.1 permission table taken at its
words (admin row all yes), kept separate from `canCode` so the two can be
compared. -/
def canSpec (r : Role) (a : Action) : Bool :=
  match r, a with
  | .agent1, .createBooking => true
  | .agent1, .submitBooking => true
  | .agent1, _ => false
  | .agent2, _ => false
  | .account, .verifyAccount => true
  | .account, .viewReports => true
  | .account, _ => false
  | .admin, _ => true

/-- Booking, restricted to the workflow-relevant fields of spec section 3
(status and the four lifecycle timestamps); times are naturals. -/
structure Booking where
  status : Status
  created_at : ℕ
  submitted_at : Option ℕ
  account_verified_at : Option ℕ
  admin_verified_at : Option ℕ
  deriving DecidableEq

/-- The three workflow transitions implemented by the examined surface
(spec section 4.2 transition table). -/
inductive TAction
  | tsubmit
  | tverifyAccount
  | tverifyAdmin
  deriving DecidableEq

/-- Error taxonomy of spec section 7. -/
inductive TransitionError
  | UnknownRole
  | Forbidden
  | InvalidTransition
  | NotFound
  | InvalidInput
  | AuditFailure
  | Conflict
  deriving DecidableEq

/-- Required From status of each transition (section 4.2 table). -/
def tFrom : TAction → Status
  | .tsubmit => .draft
  | .tverifyAccount => .pending_verification
  | .tverifyAdmin => .account_verified

/-- Target status of each transition (section 4.2 table). -/
def tTo : TAction → Status
  | .tsubmit => .pending_verification
  | .tverifyAccount => .account_verified
  | .tverifyAdmin => .admin_verified

/-- Required role of each transition per the section 4.2 table (submit:
agent1 the creator; verify_account: account or admin; verify_admin:
admin), matching the roles for which the UI renders each action button. -/
def roleAllowed (r : Role) : TAction → Bool
  | .tsubmit => r == .agent1
  | .tverifyAccount => r == .account || r == .admin
  | .tverifyAdmin => r == .admin

/-- State change and timestamp side effect of a transition (section 4.2
table), applied together. -/
def applyT (b : Booking) (a : TAction) (now : ℕ) : Booking :=
  match a with
  | .tsubmit => { b with status := .pending_verification, submitted_at := some now }
  | .tverifyAccount => { b with status := .account_verified, account_verified_at := some now }
  | .tverifyAdmin => { b with status := .admin_verified, admin_verified_at := some now }

/-- Modelled from the spec: the section 4.2 transition algorithm, whose
engine lives behind the REST API and is not under src/.  Step 1 checks the
role (Forbidden), step 2 the current status (InvalidTransition), step 3
applies status and timestamp atomically. -/
def transition (b : Booking) (a : TAction) (actor : Role) (now : ℕ) :
    Except TransitionError Booking :=
  if roleAllowed actor a then
    if b.status = tFrom a then Except.ok (applyT b a now)
    else Except.error TransitionError.InvalidTransition
  else Except.error TransitionError.Forbidden

/-- Whether an Except is a success. -/
def isOk {ε α : Type} : Except ε α → Bool
  | .ok _ => true
  | .error _ => false

/-- Guard for the submit button, BookingDetailPage (part_003) line 97. -/
def uiShowSubmit (role : Role) (status : Status) : Bool :=
  role == .agent1 && status == .draft

/-- Guard for the account-verify button, BookingDetailPage line 102. -/
def uiShowVerifyAccount (role : Role) (status : Status) : Bool :=
  (role == .account || role == .admin) && status == .pending_verification

/-- Guard for the admin-verify button, BookingDetailPage line 108. -/
def uiShowVerifyAdmin (role : Role) (status : Status) : Bool :=
  role == .admin && status == .account_verified

/-- Modelled from the spec: a booking freshly created by create_booking
(status draft, only created_at populated). -/
def newBooking (t0 : ℕ) : Booking :=
  { status := .draft, created_at := t0, submitted_at := none,
    account_verified_at := none, admin_verified_at := none }

/-- Modelled from the spec: the bookings reachable through the workflow
core from creation.  The second index is the time of the last mutation;
the wall clock (`now` of each operation) is non-decreasing across
successive operations on the booking. -/
inductive Reach : Booking → ℕ → Prop
  | created (t0 : ℕ) : Reach (newBooking t0) t0
  | step {b : Booking} {t : ℕ} (a : TAction) (actor : Role) (now : ℕ) {b' : Booking}
      (hr : Reach b t) (hnow : t ≤ now)
      (ht : transition b a actor now = Except.ok b') : Reach b' now

/-- The timestamp invariant claimed in spec section 3: each lifecycle
timestamp is populated iff the booking passed through the corresponding
state, and the populated ones are monotonically non-decreasing in
lifecycle order. -/
def TimestampsOk (b : Booking) : Prop :=
  (b.submitted_at.isSome ↔
    (b.status = .pending_verification ∨ b.status = .account_verified ∨
      b.status = .admin_verified)) ∧
  (b.account_verified_at.isSome ↔
    (b.status = .account_verified ∨ b.status = .admin_verified)) ∧
  (b.admin_verified_at.isSome ↔ b.status = .admin_verified) ∧
  (∀ t1, b.submitted_at = some t1 → b.created_at ≤ t1) ∧
  (∀ t1 t2, b.submitted_at = some t1 → b.account_verified_at = some t2 → t1 ≤ t2) ∧
  (∀ t2 t3, b.account_verified_at = some t2 → b.admin_verified_at = some t3 → t2 ≤ t3)

/-- Induction-strengthened invariant: `TimestampsOk` plus bounds by the
time of the last mutation. -/
def ReachInv (b : Booking) (t : ℕ) : Prop :=
  b.created_at ≤ t ∧
  (∀ ts, b.submitted_at = some ts → ts ≤ t) ∧
  (∀ ts, b.account_verified_at = some ts → ts ≤ t) ∧
  (∀ ts, b.admin_verified_at = some ts → ts ≤ t) ∧
  TimestampsOk b

/-- The persisted booking store, keyed by booking id. -/
def BStore := ℕ → Option Booking

/-- Store update at one id. -/
def setB (st : BStore) (bid : ℕ) (b : Booking) : BStore :=
  fun j => if j = bid then some b else st j

/-- Outcome of one workflow operation: the caller-visible result and the
store state after the operation. -/
structure OpResult where
  result : Except TransitionError Booking
  store : BStore

/-- Modelled from the spec: persistence `save_booking(booking,
expected_status)` with compare-and-swap semantics (section 5 and 6);
a status mismatch is a Conflict. -/
def saveBookingCAS (st : BStore) (bid : ℕ) (expected : Status) (b' : Booking) :
    Except TransitionError BStore :=
  match st bid with
  | none => Except.error TransitionError.NotFound
  | some cur =>
      if cur.status = expected then Except.ok (setB st bid b')
      else Except.error TransitionError.Conflict

/-- Modelled from the spec: steps 1-3 of the section 4.2 workflow
operation — load the booking (NotFound), run the transition (Forbidden /
InvalidTransition), save with the loaded status as the CAS expectation —
yielding the updated booking and the updated store. -/
def attemptTransition (st : BStore) (bid : ℕ) (a : TAction) (actor : Role)
    (now : ℕ) : Except TransitionError (Booking × BStore) :=
  match st bid with
  | none => Except.error TransitionError.NotFound
  | some b =>
    match transition b a actor now with
    | .error e => Except.error e
    | .ok b' =>
      match saveBookingCAS st bid b.status b' with
      | .error e => Except.error e
      | .ok st' => Except.ok (b', st')

/-- Modelled from the spec: the full workflow service operation of section
4.2 steps 1-5: the attempt of steps 1-3 followed by the synchronous audit
write, whose outcome is `auditOk`; on audit failure the operation returns
AuditFailure with the original store — the state change is rolled back,
all-or-nothing. -/
def applyTransition (st : BStore) (bid : ℕ) (a : TAction) (actor : Role)
    (now : ℕ) (auditOk : Bool) : OpResult :=
  match attemptTransition st bid a actor now with
  | .error e => ⟨Except.error e, st⟩
  | .ok (b', st') =>
      if auditOk then ⟨Except.ok b', st'⟩
      else ⟨Except.error TransitionError.AuditFailure, st⟩

/-- A travel leg as entered in the create-booking form
(CreateBookingPage line 31). -/
structure TravelLeg where
  travel_date : String
  from_location : String
  to_location : String
  return_date : String
  deriving DecidableEq

/-- The `travel_details` object of the create-booking payload
(CreateBookingPage lines 82-86). -/
structure TravelDetails where
  sector_type : String
  legs : List TravelLeg
  note : Option String
  deriving DecidableEq

/-- The form state feeding `handleSubmit` (CreateBookingPage lines
20-34).  `our_cost` and `sale_price` carry the values of
`parseFloat(...)` on the form strings; the string-to-number parse itself
is outside this model. -/
structure BookingFormData where
  pax_name : String
  contact_person : String
  contact_number : String
  pnr : String
  airline : String
  supplier_id : String
  our_cost : JSNum
  sale_price : JSNum
  sector_type : String
  payment_type : String
  travel_legs : List TravelLeg
  note : String
  installments : List Installment

/-- The `bookingData` payload posted to `/bookings`
(CreateBookingPage lines 72-88); `Option` models JS `null` fields. -/
structure BookingPayload where
  pax_name : String
  contact_person : Option String
  contact_number : String
  pnr : String
  airline : String
  supplier_id : String
  our_cost : JSNum
  sale_price : JSNum
  payment_type : String
  travel_details : TravelDetails
  installments : Option (List Installment)

/-- JS truthiness of a string: every string but the empty one is truthy. -/
def strTruthy (s : String) : Bool := s != ""

/-- The payload builder of `handleSubmit`, CreateBookingPage lines 72-88:
legs lacking any of travel_date, from_location, to_location are filtered
out; installments are sent only when payment_type is `installments`,
otherwise `null`; `|| null` on contact_person and note maps empty strings
to `null`. -/
def buildBookingData (f : BookingFormData) : BookingPayload :=
  { pax_name := f.pax_name
    contact_person := if strTruthy f.contact_person then some f.contact_person else none
    contact_number := f.contact_number
    pnr := f.pnr
    airline := f.airline
    supplier_id := f.supplier_id
    our_cost := f.our_cost
    sale_price := f.sale_price
    payment_type := f.payment_type
    travel_details :=
      { sector_type := f.sector_type
        legs := f.travel_legs.filter
          (fun leg => strTruthy leg.travel_date && strTruthy leg.from_location &&
            strTruthy leg.to_location)
        note := if strTruthy f.note then some f.note else none }
    installments :=
      if f.payment_type = "installments" then some f.installments else none }

/-- A booking sitting in pending_verification (counterexample input). -/
def bPending : Booking :=
  { status := .pending_verification, created_at := 0, submitted_at := some 0,
    account_verified_at := none, admin_verified_at := none }

/-- A store holding one draft booking at id 1 (witness input). -/
def st1 : BStore :=
  fun j => if j = 1 then some (newBooking 0) else none

/-- A concrete full-payment form with one complete and one incomplete
travel leg (witness input). -/
def form0 : BookingFormData :=
  { pax_name := "A", contact_person := "", contact_number := "1", pnr := "P"
    airline := "X", supplier_id := "s1", our_cost := JSNum.num 90
    sale_price := JSNum.num 100, sector_type := "multiple"
    payment_type := "full_payment"
    travel_legs :=
      [{ travel_date := "2026-01-01", from_location := "DEL", to_location := "BOM",
         return_date := "" },
       { travel_date := "", from_location := "BOM", to_location := "DEL",
         return_date := "" }]
    note := "", installments := [] }

theorem amountOr0_eq (a : Amount) : amountOr0 a = JSNum.num (amtVal a) := by
  cases a <;> rfl

theorem jsSub_nan (x : JSNum) : jsSub JSNum.nan x = JSNum.nan := by
  cases x <;> rfl

theorem foldl_totalPaid (xs : List Installment) (a : ℚ) :
    xs.foldl (fun s i => jsAdd s (amountOr0 i.amount)) (JSNum.num a)
      = JSNum.num (a + (xs.map (fun i => amtVal i.amount)).sum) := by
  induction xs generalizing a with
  | nil => simp
  | cons x xs ih =>
      simp only [List.foldl_cons, List.map_cons, List.sum_cons]
      have hstep : jsAdd (JSNum.num a) (amountOr0 x.amount)
          = JSNum.num (a + amtVal x.amount) := by
        rw [amountOr0_eq]
        rfl
      rw [hstep, ih, add_assoc]

theorem totalPaid_arr (xs : List Installment) :
    calculateTotalPaid (.tarr xs)
      = JSNum.num ((xs.map (fun i => amtVal i.amount)).sum) := by
  simp [calculateTotalPaid, foldl_totalPaid]

theorem totalPaid_num (insts : TPArg) :
    ∃ tp : ℚ, calculateTotalPaid insts = JSNum.num tp := by
  cases insts <;> first
    | exact ⟨_, totalPaid_arr _⟩
    | exact ⟨0, rfl⟩

theorem totalPaid_drop (x : Installment) (hx : amtVal x.amount = 0)
    (pre post : List Installment) :
    calculateTotalPaid (.tarr (pre ++ x :: post))
      = calculateTotalPaid (.tarr (pre ++ post)) := by
  simp [totalPaid_arr, hx]

/-- C3: for every list of installments, `calculateTotalPaid` returns the
sum of the installment amounts; an empty list and the absent (null /
undefined) cases return 0; in particular `total_paid([]) = 0` and
`total_paid([{amount:100},{amount:50}]) = 150`. -/
theorem C3_total_paid_is_sum :
    (∀ qs : List ℚ,
      calculateTotalPaid
        (.tarr (qs.map (fun q => { amount := Amount.num q, date := "", mode := "" })))
        = JSNum.num qs.sum) ∧
    calculateTotalPaid (.tarr []) = JSNum.num 0 ∧
    calculateTotalPaid .tnull = JSNum.num 0 ∧
    calculateTotalPaid .tundef = JSNum.num 0 ∧
    calculateTotalPaid
      (.tarr [{ amount := Amount.num 100, date := "", mode := "" },
              { amount := Amount.num 50, date := "", mode := "" }])
      = JSNum.num 150 := by
  refine ⟨?_, rfl, rfl, rfl, ?_⟩
  · intro qs
    rw [totalPaid_arr, List.map_map]
    simp [Function.comp_def, amtVal]
  · rw [totalPaid_arr]
    norm_num [amtVal]

/-- C4: for every numeric sale_price and every installment argument,
`calculateBalance` returns sale_price minus the total paid, with no
clamping (overpayment yields a negative balance, as the concrete -50
example shows); in particular `balance(500, [{amount:100},{amount:50}])
= 350`. -/
theorem C4_balance_is_difference :
    (∀ (q : ℚ) (insts : TPArg), ∃ tp : ℚ,
        calculateTotalPaid insts = JSNum.num tp ∧
        calculateBalance (.snum q) insts = JSNum.num (q - tp)) ∧
    calculateBalance (.snum 500)
      (.tarr [{ amount := Amount.num 100, date := "", mode := "" },
              { amount := Amount.num 50, date := "", mode := "" }])
      = JSNum.num 350 ∧
    calculateBalance (.snum 100)
      (.tarr [{ amount := Amount.num 150, date := "", mode := "" }])
      = JSNum.num (-50) := by
  refine ⟨?_, ?_, ?_⟩
  · intro q insts
    obtain ⟨tp, htp⟩ := totalPaid_num insts
    refine ⟨tp, htp, ?_⟩
    unfold calculateBalance
    rw [htp]
    rfl
  · unfold calculateBalance
    rw [totalPaid_arr]
    norm_num [amtVal, spToNumber, jsSub]
  · unfold calculateBalance
    rw [totalPaid_arr]
    norm_num [amtVal, spToNumber, jsSub]

/-- C5 counterexample: the claim says `calculateBalance` fails with an
InvalidInput error when sale_price is null; on the code a null sale_price
coerces to 0 and the call returns the ordinary number -100 — its result
type carries no error at all. -/
theorem C5_counterexample :
    calculateBalance .snull
      (.tarr [{ amount := Amount.num 100, date := "", mode := "" }])
      = JSNum.num (-100) := by
  unfold calculateBalance
  rw [totalPaid_arr]
  norm_num [amtVal, spToNumber, jsSub]

/-- C5 amended: `calculateBalance` performs no validation of sale_price:
a null sale_price coerces to 0, so the call returns 0 minus the total
paid, and an undefined sale_price yields NaN; no InvalidInput error is
raised in either case. -/
theorem C5_no_invalid_input_check (insts : TPArg) :
    (∃ tp : ℚ, calculateTotalPaid insts = JSNum.num tp ∧
      calculateBalance .snull insts = JSNum.num (0 - tp)) ∧
    calculateBalance .sundef insts = JSNum.nan := by
  obtain ⟨tp, htp⟩ := totalPaid_num insts
  constructor
  · refine ⟨tp, htp, ?_⟩
    unfold calculateBalance
    rw [htp]
    rfl
  · unfold calculateBalance
    rw [htp]
    rfl

/-- C9: `calculateTotalPaid` is total on ill-shaped input: every non-array
argument (null, undefined, NaN, any number, string, boolean, plain object)
yields 0; an array always yields a finite number (never NaN); and an
installment whose amount is absent, null, undefined, or 0 contributes
exactly 0 to the sum (dropping it leaves the total unchanged). -/
theorem C9_total_paid_robust :
    calculateTotalPaid .tnull = JSNum.num 0 ∧
    calculateTotalPaid .tundef = JSNum.num 0 ∧
    calculateTotalPaid .tnan = JSNum.num 0 ∧
    (∀ q : ℚ, calculateTotalPaid (.tnum q) = JSNum.num 0) ∧
    (∀ s : String, calculateTotalPaid (.tstr s) = JSNum.num 0) ∧
    (∀ bv : Bool, calculateTotalPaid (.tbool bv) = JSNum.num 0) ∧
    calculateTotalPaid .tobj = JSNum.num 0 ∧
    (∀ xs : List Installment, ∃ q : ℚ, calculateTotalPaid (.tarr xs) = JSNum.num q) ∧
    (∀ (pre post : List Installment) (d m : String),
      calculateTotalPaid
        (.tarr (pre ++ { amount := Amount.missing, date := d, mode := m } :: post))
        = calculateTotalPaid (.tarr (pre ++ post))) ∧
    (∀ (pre post : List Installment) (d m : String),
      calculateTotalPaid
        (.tarr (pre ++ { amount := Amount.anull, date := d, mode := m } :: post))
        = calculateTotalPaid (.tarr (pre ++ post))) ∧
    (∀ (pre post : List Installment) (d m : String),
      calculateTotalPaid
        (.tarr (pre ++ { amount := Amount.undef, date := d, mode := m } :: post))
        = calculateTotalPaid (.tarr (pre ++ post))) ∧
    (∀ (pre post : List Installment) (d m : String),
      calculateTotalPaid
        (.tarr (pre ++ { amount := Amount.num 0, date := d, mode := m } :: post))
        = calculateTotalPaid (.tarr (pre ++ post))) := by
  refine ⟨rfl, rfl, rfl, fun _ => rfl, fun _ => rfl, fun _ => rfl, rfl,
    fun xs => ⟨_, totalPaid_arr xs⟩, ?_, ?_, ?_, ?_⟩
  · exact fun pre post d m =>
      totalPaid_drop { amount := Amount.missing, date := d, mode := m } rfl pre post
  · exact fun pre post d m =>
      totalPaid_drop { amount := Amount.anull, date := d, mode := m } rfl pre post
  · exact fun pre post d m =>
      totalPaid_drop { amount := Amount.undef, date := d, mode := m } rfl pre post
  · exact fun pre post d m =>
      totalPaid_drop { amount := Amount.num 0, date := d, mode := m } rfl pre post

/-- C2 counterexample: the claim says the code's role policy equals the
section 4.1 table exactly, and that table's admin row grants Submit; but
in the code the submit action is offered to agent1 only (BookingDetailPage
line 97 renders the submit button for agent1 alone, and no other surface
lets admin submit), so admin lacks the submit permission. -/
theorem C2_counterexample :
    canCode Role.admin Action.submitBooking = false ∧
    canSpec Role.admin Action.submitBooking = true :=
  ⟨rfl, rfl⟩

/-- C2 amended: the code's role policy matches the section 4.1 table at
every (role, action) pair except (admin, submit): in the code only agent1
may submit (as the section 4.2 transition table itself requires of the
creator), so the policy equals the table with the admin-submit entry
switched off. -/
theorem C2_role_policy (r : Role) (a : Action) :
    canCode r a
      = (canSpec r a && !(r == Role.admin && a == Action.submitBooking)) := by
  cases r <;> cases a <;> rfl

theorem transition_eq_ok {b : Booking} {a : TAction} {actor : Role} {now : ℕ}
    {b' : Booking} :
    transition b a actor now = Except.ok b' ↔
      (roleAllowed actor a = true ∧ b.status = tFrom a ∧ b' = applyT b a now) := by
  unfold transition
  by_cases h1 : roleAllowed actor a = true
  · by_cases h2 : b.status = tFrom a
    · simp [h1, h2, eq_comm]
    · simp [h1, h2]
  · simp [h1]

theorem isOk_transition (b : Booking) (a : TAction) (actor : Role) (now : ℕ) :
    isOk (transition b a actor now)
      = (roleAllowed actor a && decide (b.status = tFrom a)) := by
  unfold transition
  by_cases h1 : roleAllowed actor a = true
  · by_cases h2 : b.status = tFrom a <;> simp [h1, h2, isOk]
  · simp [h1, isOk]

/-- C1 amended: each transition succeeds exactly when the actor's role and
the booking's status match the section 4.2 table row (submit: agent1 on a
draft, to pending_verification; verify_account: account or admin on
pending_verification, to account_verified; verify_admin: admin on
account_verified, to admin_verified), the UI button guards coincide with
that enabledness, and a status mismatch fails with InvalidTransition
provided the actor's role is permitted the action — the role check comes
first, so an unpermitted role fails with Forbidden instead. -/
theorem C1_transition_table (b : Booking) (actor : Role) (now : ℕ) :
    (isOk (transition b .tsubmit actor now) = true ↔
      (actor = Role.agent1 ∧ b.status = Status.draft)) ∧
    (isOk (transition b .tverifyAccount actor now) = true ↔
      ((actor = Role.account ∨ actor = Role.admin) ∧
        b.status = Status.pending_verification)) ∧
    (isOk (transition b .tverifyAdmin actor now) = true ↔
      (actor = Role.admin ∧ b.status = Status.account_verified)) ∧
    (∀ b', transition b .tsubmit actor now = Except.ok b' →
      b'.status = Status.pending_verification ∧ b'.submitted_at = some now) ∧
    (∀ b', transition b .tverifyAccount actor now = Except.ok b' →
      b'.status = Status.account_verified ∧ b'.account_verified_at = some now) ∧
    (∀ b', transition b .tverifyAdmin actor now = Except.ok b' →
      b'.status = Status.admin_verified ∧ b'.admin_verified_at = some now) ∧
    (∀ a : TAction, roleAllowed actor a = true → b.status ≠ tFrom a →
      transition b a actor now = Except.error TransitionError.InvalidTransition) ∧
    uiShowSubmit actor b.status = isOk (transition b .tsubmit actor now) ∧
    uiShowVerifyAccount actor b.status = isOk (transition b .tverifyAccount actor now) ∧
    uiShowVerifyAdmin actor b.status = isOk (transition b .tverifyAdmin actor now) := by
  obtain ⟨st, ca, sa, aa, da⟩ := b
  refine ⟨?_, ?_, ?_, ?_, ?_, ?_, ?_, ?_, ?_, ?_⟩
  · rw [isOk_transition]
    simp [roleAllowed, tFrom]
  · rw [isOk_transition]
    simp [roleAllowed, tFrom]
  · rw [isOk_transition]
    simp [roleAllowed, tFrom]
  · intro b' hb'
    obtain ⟨-, -, rfl⟩ := transition_eq_ok.mp hb'
    exact ⟨rfl, rfl⟩
  · intro b' hb'
    obtain ⟨-, -, rfl⟩ := transition_eq_ok.mp hb'
    exact ⟨rfl, rfl⟩
  · intro b' hb'
    obtain ⟨-, -, rfl⟩ := transition_eq_ok.mp hb'
    exact ⟨rfl, rfl⟩
  · intro a hrole hstat
    unfold transition
    simp [hrole, hstat]
  · rw [isOk_transition]
    cases actor <;> cases st <;> rfl
  · rw [isOk_transition]
    cases actor <;> cases st <;> rfl
  · rw [isOk_transition]
    cases actor <;> cases st <;> rfl

/-- C1 counterexample: bPending's status (pending_verification) does not
match submit's required From state (draft), yet a submit attempt by agent2
fails with Forbidden, not InvalidTransition: per the section 4.2 algorithm
the role check precedes the status check (the spec's own agent2 scenario
in section 8 expects Forbidden), refuting the claim's clause that any
status-mismatched attempt fails with InvalidTransition. -/
theorem C1_counterexample :
    bPending.status ≠ tFrom TAction.tsubmit ∧
    transition bPending TAction.tsubmit Role.agent2 1
      = Except.error TransitionError.Forbidden :=
  ⟨by decide, rfl⟩

/-- C1 witness: a permitted role (agent1) attempting submit on a
pending_verification booking fails with InvalidTransition. -/
theorem C1_transition_table_witness :
    transition bPending TAction.tsubmit Role.agent1 5
      = Except.error TransitionError.InvalidTransition :=
  (C1_transition_table bPending Role.agent1 5).2.2.2.2.2.2.1
    TAction.tsubmit rfl (by decide)

theorem reach_inv {b : Booking} {t : ℕ} (h : Reach b t) : ReachInv b t := by
  induction h with
  | created t0 =>
      simp [ReachInv, TimestampsOk, newBooking]
  | @step b t a actor now b' hr hnow ht ih =>
      obtain ⟨hrole, hfrom, rfl⟩ := transition_eq_ok.mp ht
      unfold ReachInv TimestampsOk at ih
      obtain ⟨hct, hs, ha, hd, i1, i2, i3, m1, m2, m3⟩ := ih
      unfold ReachInv TimestampsOk
      cases a with
      | tsubmit =>
          have hstat : b.status = Status.draft := hfrom
          have hsubn : b.submitted_at = none :=
            Option.not_isSome_iff_eq_none.mp
              (fun hsm => by have := i1.mp hsm; rw [hstat] at this; simp at this)
          have haccn : b.account_verified_at = none :=
            Option.not_isSome_iff_eq_none.mp
              (fun hsm => by have := i2.mp hsm; rw [hstat] at this; simp at this)
          have hadmn : b.admin_verified_at = none :=
            Option.not_isSome_iff_eq_none.mp
              (fun hsm => by have := i3.mp hsm; rw [hstat] at this; simp at this)
          refine ⟨hct.trans hnow, ?_, ?_, ?_, ?_, ?_, ?_, ?_, ?_, ?_⟩
          · intro ts hts
            simp [applyT] at hts
            omega
          · intro ts hts
            simp [applyT, haccn] at hts
          · intro ts hts
            simp [applyT, hadmn] at hts
          · simp [applyT]
          · simp [applyT, haccn]
          · simp [applyT, hadmn]
          · intro t1 h1
            simp [applyT] at h1 ⊢
            omega
          · intro t1 t2 h1 h2
            simp [applyT, haccn] at h2
          · intro t2 t3 h2 h3
            simp [applyT, haccn] at h2
      | tverifyAccount =>
          have hstat : b.status = Status.pending_verification := hfrom
          have hsub1 : b.submitted_at.isSome := i1.mpr (Or.inl hstat)
          have hadmn : b.admin_verified_at = none :=
            Option.not_isSome_iff_eq_none.mp
              (fun hsm => by have := i3.mp hsm; rw [hstat] at this; simp at this)
          refine ⟨hct.trans hnow, ?_, ?_, ?_, ?_, ?_, ?_, ?_, ?_, ?_⟩
          · intro ts hts
            simp [applyT] at hts
            exact (hs ts hts).trans hnow
          · intro ts hts
            simp [applyT] at hts
            omega
          · intro ts hts
            simp [applyT, hadmn] at hts
          · simp [applyT, hsub1]
          · simp [applyT]
          · simp [applyT, hadmn]
          · intro t1 h1
            simp [applyT] at h1 ⊢
            exact m1 t1 h1
          · intro t1 t2 h1 h2
            simp [applyT] at h1 h2
            have := hs t1 h1
            omega
          · intro t2 t3 h2 h3
            simp [applyT, hadmn] at h3
      | tverifyAdmin =>
          have hstat : b.status = Status.account_verified := hfrom
          have hsub1 : b.submitted_at.isSome := i1.mpr (Or.inr (Or.inl hstat))
          have hacc1 : b.account_verified_at.isSome := i2.mpr (Or.inl hstat)
          refine ⟨hct.trans hnow, ?_, ?_, ?_, ?_, ?_, ?_, ?_, ?_, ?_⟩
          · intro ts hts
            simp [applyT] at hts
            exact (hs ts hts).trans hnow
          · intro ts hts
            simp [applyT] at hts
            exact (ha ts hts).trans hnow
          · intro ts hts
            simp [applyT] at hts
            omega
          · simp [applyT, hsub1]
          · simp [applyT, hacc1]
          · simp [applyT]
          · intro t1 h1
            simp [applyT] at h1 ⊢
            exact m1 t1 h1
          · intro t1 t2 h1 h2
            simp [applyT] at h1 h2
            exact m2 t1 t2 h1 h2
          · intro t2 t3 h2 h3
            simp [applyT] at h2 h3
            have := ha t2 h2
            omega

/-- C6: every booking reachable through the workflow core satisfies the
timestamp invariant: each of submitted_at, account_verified_at and
admin_verified_at is populated iff the booking passed through the
corresponding state, and created_at ≤ submitted_at ≤ account_verified_at
≤ admin_verified_at whenever present — in particular once status is
admin_verified all four are set in non-decreasing order. -/
theorem C6_timestamps_monotone {b : Booking} {t : ℕ} (h : Reach b t) :
    TimestampsOk b :=
  (reach_inv h).2.2.2.2

/-- C6 witness: a booking driven draft → pending_verification →
account_verified → admin_verified at times 1, 2, 3 satisfies the
timestamp invariant. -/
theorem C6_timestamps_monotone_witness :
    TimestampsOk
      { status := Status.admin_verified, created_at := 0, submitted_at := some 1,
        account_verified_at := some 2, admin_verified_at := some 3 } :=
  C6_timestamps_monotone
    (Reach.step .tverifyAdmin .admin 3
      (Reach.step .tverifyAccount .account 2
        (Reach.step .tsubmit .agent1 1 (Reach.created 0) (Nat.zero_le 1) rfl)
        (Nat.le_succ 1) rfl)
      (Nat.le_succ 2) rfl)

/-- C7: when the audit write fails, the workflow operation leaves the
store exactly as it was before the call (the state change is rolled back;
no partial update is observable), and whenever the same call with a
working audit would have succeeded, the failing-audit call reports
AuditFailure — so no state transition ever commits unaudited. -/
theorem C7_audit_rollback (st : BStore) (bid : ℕ) (a : TAction) (actor : Role)
    (now : ℕ) :
    (applyTransition st bid a actor now false).store = st ∧
    (∀ b', (applyTransition st bid a actor now true).result = Except.ok b' →
      (applyTransition st bid a actor now false).result
        = Except.error TransitionError.AuditFailure) := by
  unfold applyTransition
  cases h : attemptTransition st bid a actor now with
  | error e => exact ⟨rfl, fun b' hh => Except.noConfusion hh⟩
  | ok p => exact ⟨rfl, fun b' hh => rfl⟩

/-- C7 witness: on a store holding a draft booking at id 1, a submit whose
audit write fails leaves the store unchanged and reports AuditFailure,
although the same call with a working audit succeeds. -/
theorem C7_audit_rollback_witness :
    (applyTransition st1 1 .tsubmit .agent1 5 false).store = st1 ∧
    (applyTransition st1 1 .tsubmit .agent1 5 false).result
      = Except.error TransitionError.AuditFailure := by
  have h := C7_audit_rollback st1 1 .tsubmit .agent1 5
  exact ⟨h.1, h.2 (applyT (newBooking 0) .tsubmit 5) rfl⟩

/-- C8: transition application is at-most-once on a compare-and-swap
store: with a draft booking at id bid, two submit calls (each by a role
permitted to submit), executed against the store one after the other in
whichever order the race resolves, yield exactly one success and one
InvalidTransition — never two successful submissions. -/
theorem C8_at_most_once (st : BStore) (bid : ℕ) (b : Booking)
    (actor1 actor2 : Role) (now1 now2 : ℕ)
    (hb : st bid = some b) (hd : b.status = Status.draft)
    (h1 : roleAllowed actor1 .tsubmit = true)
    (h2 : roleAllowed actor2 .tsubmit = true) :
    isOk (applyTransition st bid .tsubmit actor1 now1 true).result = true ∧
    (applyTransition (applyTransition st bid .tsubmit actor1 now1 true).store
        bid .tsubmit actor2 now2 true).result
      = Except.error TransitionError.InvalidTransition := by
  have htr : transition b .tsubmit actor1 now1
      = Except.ok (applyT b .tsubmit now1) :=
    transition_eq_ok.mpr ⟨h1, hd, rfl⟩
  have hatt : attemptTransition st bid .tsubmit actor1 now1
      = Except.ok (applyT b .tsubmit now1, setB st bid (applyT b .tsubmit now1)) := by
    unfold attemptTransition saveBookingCAS
    simp [hb, htr]
  have e1 : applyTransition st bid .tsubmit actor1 now1 true
      = ⟨Except.ok (applyT b .tsubmit now1),
          setB st bid (applyT b .tsubmit now1)⟩ := by
    unfold applyTransition
    rw [hatt]
    rfl
  have hb2 : (setB st bid (applyT b .tsubmit now1)) bid
      = some (applyT b .tsubmit now1) := by
    simp [setB]
  have htr2 : transition (applyT b .tsubmit now1) .tsubmit actor2 now2
      = Except.error TransitionError.InvalidTransition := by
    unfold transition
    simp [h2, applyT, tFrom]
  have hatt2 : attemptTransition (setB st bid (applyT b .tsubmit now1)) bid
      .tsubmit actor2 now2 = Except.error TransitionError.InvalidTransition := by
    unfold attemptTransition
    simp [hb2, htr2]
  rw [e1]
  refine ⟨rfl, ?_⟩
  show (applyTransition (setB st bid (applyT b .tsubmit now1)) bid
    .tsubmit actor2 now2 true).result = _
  unfold applyTransition
  rw [hatt2]

/-- C8 witness: two successive submits by agent1 on the store holding one
draft booking at id 1: the first succeeds, the second fails with
InvalidTransition. -/
theorem C8_at_most_once_witness :
    isOk (applyTransition st1 1 .tsubmit .agent1 5 true).result = true ∧
    (applyTransition (applyTransition st1 1 .tsubmit .agent1 5 true).store
        1 .tsubmit .agent1 6 true).result
      = Except.error TransitionError.InvalidTransition :=
  C8_at_most_once st1 1 (newBooking 0) .agent1 .agent1 5 6 rfl rfl rfl rfl

/-- C10: the create-booking payload builder sends installments as null
(none, not an empty list) whenever payment_type is full_payment (indeed
whenever it is anything other than `installments`), and the legs it sends
are a sublist of the entered legs (entered order, nothing added)
containing exactly those whose travel_date, from_location and to_location
are all non-empty — incomplete legs are silently dropped, not rejected. -/
theorem C10_payload_builder (f : BookingFormData) :
    (f.payment_type = "full_payment" → (buildBookingData f).installments = none) ∧
    List.Sublist (buildBookingData f).travel_details.legs f.travel_legs ∧
    (∀ leg : TravelLeg,
      leg ∈ (buildBookingData f).travel_details.legs ↔
        (leg ∈ f.travel_legs ∧ leg.travel_date ≠ "" ∧ leg.from_location ≠ "" ∧
          leg.to_location ≠ "")) := by
  refine ⟨?_, ?_, ?_⟩
  · intro hp
    show (if f.payment_type = "installments" then some f.installments else none) = none
    rw [hp, if_neg]
    decide
  · exact List.filter_sublist _
  · intro leg
    show leg ∈ List.filter _ f.travel_legs ↔ _
    rw [List.mem_filter]
    simp [strTruthy, and_assoc]

/-- C10 witness: on the concrete full-payment form `form0`, the
installments field of the built payload is null. -/
theorem C10_payload_builder_witness :
    (buildBookingData form0).installments = none :=
  (C10_payload_builder form0).1 rfl

end PaxManager


